import Mathlib

/-!
# QuickjsHelper: script evaluation pipeline and value-handle wrappers

A shallow embedding of `rs_quickjs/src/QuickjsHelper.c`.

* C `int` is a 32-bit, twos-complement integer, `size_t` a 64-bit unsigned one; both are
  carried as `Int` / `Nat` with the reductions written out.
* The scripting engine (parser, interpreter, module loader, diagnostics) and the file system
  are external collaborators: they are the fields of `Engine`, arbitrary state transformers
  over an arbitrary engine state.  Each call the helper makes is recorded, in order, in a
  trace of `Event`s, so that what is called, with which arguments and in which order can be
  stated.
* The value layer (`JSValue`, tags, duplicate/release, constructors, predicates) lives in the
  engine header, which the helper only forwards to; it is written down here from the
  description of the data model.
-/

namespace QuickjsHelper

/-! ## Machine integers -/

/-- Reduction of an integer to the range of a C `int` (32-bit, twos-complement). -/
def wrapInt32 (x : Int) : Int := (x + 2 ^ 31) % 2 ^ 32 - 2 ^ 31

/-- The bit pattern of a C `int`, read as an unsigned 32-bit number. -/
def toU32 (x : Int) : Nat := (x % 2 ^ 32).toNat

/-- C `a & b` on `int`. -/
def int_and (a b : Int) : Int := wrapInt32 ((toU32 a &&& toU32 b : Nat) : Int)

/-- C `a | b` on `int`. -/
def int_or (a b : Int) : Int := wrapInt32 ((toU32 a ||| toU32 b : Nat) : Int)

/-- The implicit conversion `size_t → int` at the call of `QuickjsHelper_evalBuffer`
inside `QuickjsHelper_evalFile` (`buf_len` is passed for `int bufferLength`). -/
def size_to_int (n : Nat) : Int := wrapInt32 (n : Int)

/-- The implicit conversion `int → size_t` at the calls of `JS_Eval`
(`bufferLength` is passed for `size_t input_len`). -/
def int_to_size (i : Int) : Nat := (i % 2 ^ 64).toNat

/-! ## Value handles -/

/-- A value handle: the payload word `u` (read as `int32`, `float64` bits or a pointer,
depending on the tag) and the tag. -/
structure JSValue where
  u : Nat
  tag : Int
deriving DecidableEq, Repr

/-- Modelled from the spec: the tag enumeration of the engine header (quickjs.h), which is
not among the sources.  Heap kinds (reference counted) are negative, inline scalars are
non-negative. -/
def JS_TAG_FIRST : Int := -11
def JS_TAG_BIG_DECIMAL : Int := -11
def JS_TAG_BIG_INT : Int := -10
def JS_TAG_BIG_FLOAT : Int := -9
def JS_TAG_SYMBOL : Int := -8
def JS_TAG_STRING : Int := -7
def JS_TAG_MODULE : Int := -3
def JS_TAG_FUNCTION_BYTECODE : Int := -2
def JS_TAG_OBJECT : Int := -1
def JS_TAG_INT : Int := 0
def JS_TAG_BOOL : Int := 1
def JS_TAG_NULL : Int := 2
def JS_TAG_UNDEFINED : Int := 3
def JS_TAG_UNINITIALIZED : Int := 4
def JS_TAG_CATCH_OFFSET : Int := 5
def JS_TAG_EXCEPTION : Int := 6
def JS_TAG_FLOAT64 : Int := 7

/-- Modelled from the spec: `JS_IsException` of the engine header (quickjs.h), the test for
the exception marker: a tag comparison. -/
def JS_IsException (v : JSValue) : Bool := decide (v.tag = JS_TAG_EXCEPTION)

/-! ## Evaluation flags -/

/-- Modelled from the spec: the evaluation flags of the engine header (quickjs.h), which is
not among the sources: the evaluation type in the two low bits (global 0, module 1), and
the compile-only flag. -/
def JS_EVAL_TYPE_GLOBAL : Int := 0
def JS_EVAL_TYPE_MODULE : Int := 1
def JS_EVAL_TYPE_DIRECT : Int := 2
def JS_EVAL_TYPE_INDIRECT : Int := 3
def JS_EVAL_TYPE_MASK : Int := 3
def JS_EVAL_FLAG_COMPILE_ONLY : Int := 32

/-! ## Collaborators and traces -/

/-- What `js_load_file` hands back on success: the buffer and the length stored in `buf_len`. -/
structure LoadedFile where
  buf : String
  buf_len : Nat
deriving DecidableEq, Repr

/-- The collaborators of the helper over an engine state `σ`. -/
structure Engine (σ : Type) where
  js_load_file : σ → String → Option LoadedFile × σ
  JS_DetectModule : String → Nat → Bool
  JS_Eval : σ → String → Nat → String → Int → JSValue × σ
  js_module_set_import_meta : σ → JSValue → Bool → Bool → σ
  JS_EvalFunction : σ → JSValue → JSValue × σ
  js_std_dump_error : σ → σ
  JS_FreeValue : σ → JSValue → σ
  js_free : σ → String → σ

/-- One call made by the helper, with its arguments (and, for the calls that hand back a
value handle, the handle). -/
inductive Event where
  | js_load_file (filename : String) (loaded : Bool)
  | perror (s : String)
  | exit (status : Int)
  | has_suffix (str suffix : String)
  | JS_DetectModule (input : String) (input_len : Nat)
  | JS_Eval (input : String) (input_len : Nat) (filename : String) (eval_flags : Int)
      (result : JSValue)
  | js_module_set_import_meta (func_val : JSValue) (use_realpath is_main : Bool)
  | JS_EvalFunction (fun_obj : JSValue) (result : JSValue)
  | js_std_dump_error
  | JS_FreeValue (v : JSValue)
  | js_free (buf : String)
deriving DecidableEq, Repr

/-- The result of running a helper function: what it returns, the engine state it leaves,
and the calls it made. -/
structure Run (σ : Type) (α : Type) where
  ret : α
  ctx : σ
  trace : List Event

/-- How a call of `QuickjsHelper_evalFile` ends: it returns a status, or the process is
terminated by `exit`. -/
inductive Outcome where
  | returned (ret : Int)
  | exited (status : Int)
deriving DecidableEq, Repr

/-- Modelled from the spec: `has_suffix` of the engine utility header (cutils.h), the
filename-suffix test: `str` is at least as long as `suffix` and its last characters are
those of `suffix`. -/
def has_suffix (str suffix : String) : Bool :=
  decide (suffix.length ≤ str.length) &&
    (str.data.drop (str.length - suffix.length) == suffix.data)

/-! ## The evaluation pipeline -/

/-- The compile / link / execute part of `QuickjsHelper_evalBuffer` (lines 41-53): the value
finally held in `val`, the engine state, and the calls made. -/
def evalBuffer_val {σ : Type} (E : Engine σ) (ctx : σ) (buffer : String) (bufferLength : Int)
    (filename : String) (evalFlags : Int) : Run σ JSValue :=
  if int_and evalFlags JS_EVAL_TYPE_MASK = JS_EVAL_TYPE_MODULE then
    let flags := int_or evalFlags JS_EVAL_FLAG_COMPILE_ONLY
    let r := E.JS_Eval ctx buffer (int_to_size bufferLength) filename flags
    let t := [Event.JS_Eval buffer (int_to_size bufferLength) filename flags r.1]
    if !JS_IsException r.1 then
      let c := E.js_module_set_import_meta r.2 r.1 true true
      let x := E.JS_EvalFunction c r.1
      ⟨x.1, x.2, t ++ [Event.js_module_set_import_meta r.1 true true,
                        Event.JS_EvalFunction r.1 x.1]⟩
    else
      ⟨r.1, r.2, t⟩
  else
    let r := E.JS_Eval ctx buffer (int_to_size bufferLength) filename evalFlags
    ⟨r.1, r.2, [Event.JS_Eval buffer (int_to_size bufferLength) filename evalFlags r.1]⟩

/-- The source function `QuickjsHelper_evalBuffer`. -/
def QuickjsHelper_evalBuffer {σ : Type} (E : Engine σ) (ctx : σ) (buffer : String)
    (bufferLength : Int) (filename : String) (evalFlags : Int) : Run σ Int :=
  let v := evalBuffer_val E ctx buffer bufferLength filename evalFlags
  if JS_IsException v.ret then
    let c := E.js_std_dump_error v.ctx
    ⟨-1, E.JS_FreeValue c v.ret, v.trace ++ [Event.js_std_dump_error, Event.JS_FreeValue v.ret]⟩
  else
    ⟨0, E.JS_FreeValue v.ctx v.ret, v.trace ++ [Event.JS_FreeValue v.ret]⟩

/-- The mode resolution of `QuickjsHelper_evalFile` (lines 19-30): the evaluation flags and
the calls made while resolving. -/
def evalFile_flags {σ : Type} (E : Engine σ) (filename : String) (f : LoadedFile)
    (module : Int) : Int × List Event :=
  let m : Int × List Event :=
    if module < 0 then
      if has_suffix filename ".mjs" then
        (1, [Event.has_suffix filename ".mjs"])
      else
        (if E.JS_DetectModule f.buf f.buf_len then 1 else 0,
          [Event.has_suffix filename ".mjs", Event.JS_DetectModule f.buf f.buf_len])
    else
      (module, [])
  (if m.1 ≠ 0 then JS_EVAL_TYPE_MODULE else JS_EVAL_TYPE_GLOBAL, m.2)

/-- The source function `QuickjsHelper_evalFile`. -/
def QuickjsHelper_evalFile {σ : Type} (E : Engine σ) (ctx : σ) (filename : String)
    (module : Int) : Run σ Outcome :=
  let l := E.js_load_file ctx filename
  match l.1 with
  | none =>
    ⟨Outcome.exited 1, l.2,
      [Event.js_load_file filename false, Event.perror filename, Event.exit 1]⟩
  | some f =>
    let m := evalFile_flags E filename f module
    let r := QuickjsHelper_evalBuffer E l.2 f.buf (size_to_int f.buf_len) filename m.1
    ⟨Outcome.returned r.ret, E.js_free r.ctx f.buf,
      [Event.js_load_file filename true] ++ m.2 ++ r.trace ++ [Event.js_free f.buf]⟩

/-! ## The value layer: duplicate / release, constructors, predicates -/

/-- The part of the runtime that the reference-counting operations touch: the reference
count of the heap object at each address, and whether the object has been freed. -/
structure JSRuntime where
  ref_count : Nat → Int
  freed : Nat → Bool

/-- A context; its heap is the one of its runtime. -/
structure JSContext where
  rt : JSRuntime

/-- Modelled from the spec: `JS_VALUE_HAS_REF_COUNT` of the engine header, the test for a
heap-backed handle: the tag, read as unsigned, is not below the first reference-counted
tag, so exactly the negative tags from `JS_TAG_FIRST` up qualify. -/
def JS_VALUE_HAS_REF_COUNT (v : JSValue) : Bool := decide (toU32 JS_TAG_FIRST ≤ toU32 v.tag)

/-- Modelled from the spec: `JS_DupValueRT` of the engine header, duplicate: increments the
reference count when the handle is heap-backed, identity copy otherwise; the handle itself
is handed back. -/
def JS_DupValueRT (rt : JSRuntime) (v : JSValue) : JSValue × JSRuntime :=
  if JS_VALUE_HAS_REF_COUNT v then
    (v, { rt with ref_count := Function.update rt.ref_count v.u (rt.ref_count v.u + 1) })
  else
    (v, rt)

/-- Modelled from the spec: `JS_FreeValueRT` of the engine header, release: decrements the
reference count and frees the object when the count is exhausted, for a heap-backed handle;
no effect otherwise. -/
def JS_FreeValueRT (rt : JSRuntime) (v : JSValue) : JSRuntime :=
  if JS_VALUE_HAS_REF_COUNT v then
    let n := rt.ref_count v.u - 1
    if n ≤ 0 then
      { ref_count := Function.update rt.ref_count v.u n,
        freed := Function.update rt.freed v.u true }
    else
      { rt with ref_count := Function.update rt.ref_count v.u n }
  else
    rt

/-- Modelled from the spec: `JS_DupValue` of the engine header, duplicate through a
context. -/
def JS_DupValue (ctx : JSContext) (v : JSValue) : JSValue × JSContext :=
  ((JS_DupValueRT ctx.rt v).1, { rt := (JS_DupValueRT ctx.rt v).2 })

/-- Modelled from the spec: `JS_FreeValue` of the engine header, release through a
context. -/
def JS_FreeValue (ctx : JSContext) (v : JSValue) : JSContext :=
  { rt := JS_FreeValueRT ctx.rt v }

/-- The source function `QuickJS_FreeValue`. -/
def QuickJS_FreeValue (ctx : JSContext) (v : JSValue) : JSContext := JS_FreeValue ctx v

/-- The source function `QuickJS_FreeValueRT`. -/
def QuickJS_FreeValueRT (rt : JSRuntime) (v : JSValue) : JSRuntime := JS_FreeValueRT rt v

/-- The source function `QuickJS_DupValue`: declared `void`, the handle handed back by `JS_DupValue` is
dropped; only the context changes. -/
def QuickJS_DupValue (ctx : JSContext) (v : JSValue) : JSContext := (JS_DupValue ctx v).2

/-- The source function `QuickJS_DupValueRT`. -/
def QuickJS_DupValueRT (rt : JSRuntime) (v : JSValue) : JSValue × JSRuntime :=
  JS_DupValueRT rt v

/-- Modelled from the spec: `JS_MKVAL` of the engine header: an inline scalar with the given
tag whose payload holds the 32-bit integer `val`. -/
def JS_MKVAL (tag : Int) (val : Int) : JSValue := ⟨toU32 val, tag⟩

/-- Modelled from the spec: `JS_NewInt32` of the engine header, the handle of a 32-bit
integer: an inline scalar with the integer tag. -/
def JS_NewInt32 (_ctx : JSContext) (val : Int) : JSValue := JS_MKVAL JS_TAG_INT val

/-- Modelled from the spec: `JS_NewBool` of the engine header, the handle of a boolean: an
inline scalar with the boolean tag and payload 0 or 1. -/
def JS_NewBool (_ctx : JSContext) (val : Int) : JSValue :=
  JS_MKVAL JS_TAG_BOOL (if val ≠ 0 then 1 else 0)

/-- Modelled from the spec: `JS_NewFloat64` of the engine header, the handle of a double,
given by its 64 bits: an inline scalar with the float64 tag. -/
def JS_NewFloat64 (_ctx : JSContext) (d : Nat) : JSValue := ⟨d, JS_TAG_FLOAT64⟩

/-- Modelled from the spec: `JS_NewInt64` of the engine header, the handle of a 64-bit
integer: the 32-bit integer handle when the value fits, otherwise the handle of the double
nearest to it (`double_of_int64` gives the bits of that double). -/
def JS_NewInt64 (double_of_int64 : Int → Nat) (ctx : JSContext) (val : Int) : JSValue :=
  if val = wrapInt32 val then JS_NewInt32 ctx val else JS_NewFloat64 ctx (double_of_int64 val)

/-- The bits of the canonical not-a-number double. -/
def JS_FLOAT64_NAN : Nat := 0x7ff8000000000000

/-- The bits of the double +infinity. -/
def FLOAT64_POS_INFINITY : Nat := 0x7ff0000000000000

/-- The bits of the double -infinity. -/
def FLOAT64_NEG_INFINITY : Nat := 0xfff0000000000000

/-- Modelled from the spec: `JS_VALUE_IS_NAN` of the engine header: the handle is
float64-tagged and its payload is the canonical not-a-number pattern. -/
def JS_VALUE_IS_NAN (v : JSValue) : Bool :=
  decide (v.tag = JS_TAG_FLOAT64) && decide (v.u = JS_FLOAT64_NAN)

/-- Modelled from the spec: `JS_IsNumber` of the engine header: the tag is the integer tag
or the float64 tag. -/
def JS_IsNumber (v : JSValue) : Bool :=
  decide (v.tag = JS_TAG_INT) || decide (v.tag = JS_TAG_FLOAT64)

/-- Modelled from the spec: `JS_IsString` of the engine header: a tag comparison. -/
def JS_IsString (v : JSValue) : Bool := decide (v.tag = JS_TAG_STRING)

/-- Modelled from the spec: `JS_IsSymbol` of the engine header: a tag comparison. -/
def JS_IsSymbol (v : JSValue) : Bool := decide (v.tag = JS_TAG_SYMBOL)

/-- Modelled from the spec: `JS_IsObject` of the engine header: a tag comparison. -/
def JS_IsObject (v : JSValue) : Bool := decide (v.tag = JS_TAG_OBJECT)

/-- The source function `QuickJS_ValueGetTag`. -/
def QuickJS_ValueGetTag (v : JSValue) : Int := v.tag

/-- The source function `QuickJS_NewFloat64`. -/
def QuickJS_NewFloat64 (ctx : JSContext) (d : Nat) : JSValue := JS_NewFloat64 ctx d

/-- The source function `QuickJS_NewInt32`. -/
def QuickJS_NewInt32 (ctx : JSContext) (val : Int) : JSValue := JS_NewInt32 ctx val

/-- The source function `QuickJS_NewInt64`. -/
def QuickJS_NewInt64 (double_of_int64 : Int → Nat) (ctx : JSContext) (val : Int) : JSValue :=
  JS_NewInt64 double_of_int64 ctx val

/-- The source function `QuickJS_NewBool`. -/
def QuickJS_NewBool (ctx : JSContext) (val : Int) : JSValue := JS_NewBool ctx val

/-- The source function `QuickJS_VALUE_IS_NAN`. -/
def QuickJS_VALUE_IS_NAN (v : JSValue) : Bool := JS_VALUE_IS_NAN v

/-- The source function `QuickJS_IsNumber`. -/
def QuickJS_IsNumber (v : JSValue) : Bool := JS_IsNumber v

/-- The source function `QuickJS_IsException`. -/
def QuickJS_IsException (v : JSValue) : Bool := JS_IsException v

/-- The source function `QuickJS_IsString`. -/
def QuickJS_IsString (v : JSValue) : Bool := JS_IsString v

/-- The source function `QuickJS_IsSymbol`. -/
def QuickJS_IsSymbol (v : JSValue) : Bool := JS_IsSymbol v

/-- The source function `QuickJS_IsObject`. -/
def QuickJS_IsObject (v : JSValue) : Bool := JS_IsObject v

/-- The source function `QuickJS_MKVAL`. -/
def QuickJS_MKVAL (tag : Int) (val : Int) : JSValue := JS_MKVAL tag val

/-- The source function `QuickJS_NULL`. -/
def QuickJS_NULL : JSValue := JS_MKVAL JS_TAG_NULL 0

/-- The source function `QuickJS_UNDEFINED`. -/
def QuickJS_UNDEFINED : JSValue := JS_MKVAL JS_TAG_UNDEFINED 0

/-- The source function `QuickJS_FALSE`. -/
def QuickJS_FALSE : JSValue := JS_MKVAL JS_TAG_BOOL 0

/-- The source function `QuickJS_TRUE`. -/
def QuickJS_TRUE : JSValue := JS_MKVAL JS_TAG_BOOL 1

/-- The source function `QuickJS_EXCEPTION`. -/
def QuickJS_EXCEPTION : JSValue := JS_MKVAL JS_TAG_EXCEPTION 0

/-- The source function `QuickJS_UNINITIALIZED`. -/
def QuickJS_UNINITIALIZED : JSValue := JS_MKVAL JS_TAG_UNINITIALIZED 0

/-- A runtime in which every object has reference count 2 and none is freed. -/
def demoRuntime : JSRuntime := { ref_count := fun _ => 2, freed := fun _ => false }

/-- A heap-backed handle: an object at address 0. -/
def demoObject : JSValue := ⟨0, JS_TAG_OBJECT⟩

/-! ## Ownership of value handles along a trace -/

/-- The effect of one call on the handles the pipeline currently owns.  A handle handed back
by `JS_Eval` or `JS_EvalFunction` becomes owned; `js_module_set_import_meta` borrows its
argument (it must be owned, and stays owned); `JS_EvalFunction` consumes its argument and
`JS_FreeValue` releases its argument (it must be owned, and one ownership of it ends).
`none` reports a use or a release of a handle that is not owned. -/
def ownStep (owned : List JSValue) : Event → Option (List JSValue)
  | Event.JS_Eval _ _ _ _ r => some (r :: owned)
  | Event.js_module_set_import_meta v _ _ => if v ∈ owned then some owned else none
  | Event.JS_EvalFunction v r => if v ∈ owned then some (r :: owned.erase v) else none
  | Event.JS_FreeValue v => if v ∈ owned then some (owned.erase v) else none
  | _ => some owned

/-- The handles still owned after a whole trace, or `none` when some call used or released
a handle that was not owned at that point. -/
def ownRun : List JSValue → List Event → Option (List JSValue)
  | owned, [] => some owned
  | owned, e :: es =>
    match ownStep owned e with
    | none => none
    | some o => ownRun o es

/-- The handles released by `JS_FreeValue` in a trace, in order. -/
def released : List Event → List JSValue
  | [] => []
  | Event.JS_FreeValue v :: es => v :: released es
  | _ :: es => released es

/-- The handles consumed by `JS_EvalFunction` in a trace, in order. -/
def consumed : List Event → List JSValue
  | [] => []
  | Event.JS_EvalFunction v _ :: es => v :: consumed es
  | _ :: es => consumed es

/-- The number of `js_std_dump_error` calls in a trace. -/
def dumps (t : List Event) : Nat := t.count Event.js_std_dump_error

/-- The arguments of the import-metadata linkage calls in a trace, in order. -/
def linkages : List Event → List (JSValue × Bool × Bool)
  | [] => []
  | Event.js_module_set_import_meta v r m :: es => (v, r, m) :: linkages es
  | _ :: es => linkages es

/-- The flags of the `JS_Eval` calls in a trace, in order. -/
def evalCalls : List Event → List Int
  | [] => []
  | Event.JS_Eval _ _ _ fl _ :: es => fl :: evalCalls es
  | _ :: es => evalCalls es

/-- The lengths given to the `JS_Eval` calls in a trace, in order. -/
def evalLengths : List Event → List Nat
  | [] => []
  | Event.JS_Eval _ n _ _ _ :: es => n :: evalLengths es
  | _ :: es => evalLengths es

/-- The handle handed back by the last engine call of a trace that hands one back
(`JS_Eval` or `JS_EvalFunction`): the final engine result. -/
def lastResult : List Event → Option JSValue
  | [] => none
  | e :: es =>
    match lastResult es with
    | some v => some v
    | none =>
      match e with
      | Event.JS_Eval _ _ _ _ r => some r
      | Event.JS_EvalFunction _ r => some r
      | _ => none

/-- Whether an event is a call of `exit`. -/
def Event.isExit : Event → Bool
  | Event.exit _ => true
  | _ => false

/-- Whether an event is mode detection, compilation, linkage or execution. -/
def Event.isEvaluation : Event → Bool
  | Event.has_suffix _ _ => true
  | Event.JS_DetectModule _ _ => true
  | Event.JS_Eval _ _ _ _ _ => true
  | Event.js_module_set_import_meta _ _ _ => true
  | Event.JS_EvalFunction _ _ => true
  | _ => false

/-! ## A small concrete engine, for evaluating the definitions on inputs -/

/-- A stand-in for the static scan: the text, after leading blanks, starts with `export` or
`import`. -/
def scanModuleSyntax (input : String) (_input_len : Nat) : Bool :=
  let s := input.data.dropWhile Char.isWhitespace
  (s.take 6 == "export".data) || (s.take 6 == "import".data)

/-- A buffer of 2^31 blanks. -/
def hugeBuffer : String := String.mk (List.replicate (2 ^ 31) (Char.ofNat 32))

/-- The files of the concrete engine. -/
def demoFiles (filename : String) : Option LoadedFile :=
  if filename = "a.mjs" then some ⟨"var x = 1;", 10⟩
  else if filename = "a.js" then some ⟨"export const x = 1;", 19⟩
  else if filename = "b.js" then some ⟨"var x = 1;", 10⟩
  else if filename = "bad.js" then some ⟨"syntax((", 8⟩
  else if filename = "empty.js" then some ⟨"", 0⟩
  else if filename = "huge.js" then some ⟨hugeBuffer, 2 ^ 31⟩
  else none

/-- A concrete engine whose state counts the calls made so far.  The text `syntax((` fails
to compile; a compile-only call hands back a module handle, any other evaluation the
undefined value. -/
def demoEngine : Engine Nat where
  js_load_file c filename := (demoFiles filename, c + 1)
  JS_DetectModule := scanModuleSyntax
  JS_Eval c input _ _ flags :=
    (if input = "syntax((" then ⟨0, JS_TAG_EXCEPTION⟩
     else if int_and flags JS_EVAL_FLAG_COMPILE_ONLY = JS_EVAL_FLAG_COMPILE_ONLY then
       ⟨c, JS_TAG_MODULE⟩
     else ⟨0, JS_TAG_UNDEFINED⟩, c + 1)
  js_module_set_import_meta c _ _ _ := c + 1
  JS_EvalFunction c _ := (⟨0, JS_TAG_UNDEFINED⟩, c + 1)
  js_std_dump_error c := c + 1
  JS_FreeValue c _ := c + 1
  js_free c _ := c + 1

/-! ## Facts about the machine-integer conversions and the suffix test -/

theorem has_suffix_iff (str suffix : String) :
    has_suffix str suffix = true ↔ ∃ stem : String, str = stem ++ suffix := by
  unfold has_suffix
  simp only [Bool.and_eq_true, decide_eq_true_eq, beq_iff_eq, String.length]
  constructor
  · rintro ⟨_, h⟩
    refine ⟨⟨str.data.take (str.data.length - suffix.data.length)⟩, ?_⟩
    apply String.ext
    simp only [String.data_append]
    calc str.data
        = List.take (str.data.length - suffix.data.length) str.data ++
            List.drop (str.data.length - suffix.data.length) str.data :=
          (List.take_append_drop _ _).symm
      _ = List.take (str.data.length - suffix.data.length) str.data ++ suffix.data := by rw [h]
  · rintro ⟨stem, rfl⟩
    simp [String.data_append]

theorem int_to_size_size_to_int (n : Nat) (h : n ≤ 2 ^ 31 - 1) :
    int_to_size (size_to_int n) = n := by
  have h1 : (n : Int) ≤ 2147483647 := by
    have : n ≤ 2147483647 := by simpa using h
    exact_mod_cast this
  have h0 : (0 : Int) ≤ (n : Int) := Int.ofNat_nonneg n
  have e1 : ((n : Int) + 2147483648) % 4294967296 = (n : Int) + 2147483648 :=
    Int.emod_eq_of_lt (by linarith) (by linarith)
  have e2 : (n : Int) % 18446744073709551616 = (n : Int) :=
    Int.emod_eq_of_lt h0 (by linarith)
  simp only [int_to_size, size_to_int, wrapInt32]
  norm_num [e1, e2]

/-! ## The shape of the runs -/

section Shapes

variable {σ : Type} (E : Engine σ) (ctx : σ) (buffer : String) (bufferLength : Int)
  (filename : String) (evalFlags : Int)

theorem evalBuffer_val_module_failed
    (h : int_and evalFlags JS_EVAL_TYPE_MASK = JS_EVAL_TYPE_MODULE)
    (hx : JS_IsException (E.JS_Eval ctx buffer (int_to_size bufferLength) filename
      (int_or evalFlags JS_EVAL_FLAG_COMPILE_ONLY)).1 = true) :
    evalBuffer_val E ctx buffer bufferLength filename evalFlags =
      ⟨(E.JS_Eval ctx buffer (int_to_size bufferLength) filename
          (int_or evalFlags JS_EVAL_FLAG_COMPILE_ONLY)).1,
       (E.JS_Eval ctx buffer (int_to_size bufferLength) filename
          (int_or evalFlags JS_EVAL_FLAG_COMPILE_ONLY)).2,
       [Event.JS_Eval buffer (int_to_size bufferLength) filename
          (int_or evalFlags JS_EVAL_FLAG_COMPILE_ONLY)
          (E.JS_Eval ctx buffer (int_to_size bufferLength) filename
            (int_or evalFlags JS_EVAL_FLAG_COMPILE_ONLY)).1]⟩ := by
  unfold evalBuffer_val
  rw [if_pos h]
  simp only [hx, Bool.not_true, Bool.false_eq_true, if_false]

theorem evalBuffer_val_module_compiled
    (h : int_and evalFlags JS_EVAL_TYPE_MASK = JS_EVAL_TYPE_MODULE)
    (hx : JS_IsException (E.JS_Eval ctx buffer (int_to_size bufferLength) filename
      (int_or evalFlags JS_EVAL_FLAG_COMPILE_ONLY)).1 = false) :
    evalBuffer_val E ctx buffer bufferLength filename evalFlags =
      ⟨(E.JS_EvalFunction (E.js_module_set_import_meta
          (E.JS_Eval ctx buffer (int_to_size bufferLength) filename
            (int_or evalFlags JS_EVAL_FLAG_COMPILE_ONLY)).2
          (E.JS_Eval ctx buffer (int_to_size bufferLength) filename
            (int_or evalFlags JS_EVAL_FLAG_COMPILE_ONLY)).1 true true)
          (E.JS_Eval ctx buffer (int_to_size bufferLength) filename
            (int_or evalFlags JS_EVAL_FLAG_COMPILE_ONLY)).1).1,
       (E.JS_EvalFunction (E.js_module_set_import_meta
          (E.JS_Eval ctx buffer (int_to_size bufferLength) filename
            (int_or evalFlags JS_EVAL_FLAG_COMPILE_ONLY)).2
          (E.JS_Eval ctx buffer (int_to_size bufferLength) filename
            (int_or evalFlags JS_EVAL_FLAG_COMPILE_ONLY)).1 true true)
          (E.JS_Eval ctx buffer (int_to_size bufferLength) filename
            (int_or evalFlags JS_EVAL_FLAG_COMPILE_ONLY)).1).2,
        [Event.JS_Eval buffer (int_to_size bufferLength) filename
            (int_or evalFlags JS_EVAL_FLAG_COMPILE_ONLY)
            (E.JS_Eval ctx buffer (int_to_size bufferLength) filename
              (int_or evalFlags JS_EVAL_FLAG_COMPILE_ONLY)).1,
         Event.js_module_set_import_meta
            (E.JS_Eval ctx buffer (int_to_size bufferLength) filename
              (int_or evalFlags JS_EVAL_FLAG_COMPILE_ONLY)).1 true true,
         Event.JS_EvalFunction
            (E.JS_Eval ctx buffer (int_to_size bufferLength) filename
              (int_or evalFlags JS_EVAL_FLAG_COMPILE_ONLY)).1
            (E.JS_EvalFunction (E.js_module_set_import_meta
              (E.JS_Eval ctx buffer (int_to_size bufferLength) filename
                (int_or evalFlags JS_EVAL_FLAG_COMPILE_ONLY)).2
              (E.JS_Eval ctx buffer (int_to_size bufferLength) filename
                (int_or evalFlags JS_EVAL_FLAG_COMPILE_ONLY)).1 true true)
              (E.JS_Eval ctx buffer (int_to_size bufferLength) filename
                (int_or evalFlags JS_EVAL_FLAG_COMPILE_ONLY)).1).1]⟩ := by
  unfold evalBuffer_val
  rw [if_pos h]
  simp only [hx, Bool.not_false, if_true, List.singleton_append]

theorem evalBuffer_val_global (h : int_and evalFlags JS_EVAL_TYPE_MASK ≠ JS_EVAL_TYPE_MODULE) :
    evalBuffer_val E ctx buffer bufferLength filename evalFlags =
      ⟨(E.JS_Eval ctx buffer (int_to_size bufferLength) filename evalFlags).1,
       (E.JS_Eval ctx buffer (int_to_size bufferLength) filename evalFlags).2,
       [Event.JS_Eval buffer (int_to_size bufferLength) filename evalFlags
          (E.JS_Eval ctx buffer (int_to_size bufferLength) filename evalFlags).1]⟩ := by
  rw [evalBuffer_val, if_neg h]

theorem evalBuffer_eq :
    QuickjsHelper_evalBuffer E ctx buffer bufferLength filename evalFlags =
      if JS_IsException (evalBuffer_val E ctx buffer bufferLength filename evalFlags).ret then
        ⟨-1,
         E.JS_FreeValue
           (E.js_std_dump_error (evalBuffer_val E ctx buffer bufferLength filename evalFlags).ctx)
           (evalBuffer_val E ctx buffer bufferLength filename evalFlags).ret,
         (evalBuffer_val E ctx buffer bufferLength filename evalFlags).trace ++
           [Event.js_std_dump_error,
            Event.JS_FreeValue (evalBuffer_val E ctx buffer bufferLength filename evalFlags).ret]⟩
      else
        ⟨0,
         E.JS_FreeValue (evalBuffer_val E ctx buffer bufferLength filename evalFlags).ctx
           (evalBuffer_val E ctx buffer bufferLength filename evalFlags).ret,
         (evalBuffer_val E ctx buffer bufferLength filename evalFlags).trace ++
           [Event.JS_FreeValue (evalBuffer_val E ctx buffer bufferLength filename evalFlags).ret]⟩ :=
  rfl

theorem evalBuffer_trace_eq :
    (QuickjsHelper_evalBuffer E ctx buffer bufferLength filename evalFlags).trace =
      (evalBuffer_val E ctx buffer bufferLength filename evalFlags).trace ++
        (if JS_IsException (evalBuffer_val E ctx buffer bufferLength filename evalFlags).ret
          then [Event.js_std_dump_error] else []) ++
        [Event.JS_FreeValue (evalBuffer_val E ctx buffer bufferLength filename evalFlags).ret] := by
  rw [evalBuffer_eq]
  split
  · rw [List.append_assoc]; rfl
  · rw [List.append_nil]

theorem evalBuffer_ret_eq :
    (QuickjsHelper_evalBuffer E ctx buffer bufferLength filename evalFlags).ret =
      (if JS_IsException (evalBuffer_val E ctx buffer bufferLength filename evalFlags).ret
        then -1 else 0) := by
  rw [evalBuffer_eq]
  split <;> rfl

/-- The three shapes of the compile / link / execute part. -/
theorem evalBuffer_val_cases :
    (∃ v c fl, evalBuffer_val E ctx buffer bufferLength filename evalFlags =
        ⟨v, c, [Event.JS_Eval buffer (int_to_size bufferLength) filename fl v]⟩) ∨
    (∃ u v c fl, evalBuffer_val E ctx buffer bufferLength filename evalFlags =
        ⟨v, c, [Event.JS_Eval buffer (int_to_size bufferLength) filename fl u,
                 Event.js_module_set_import_meta u true true,
                 Event.JS_EvalFunction u v]⟩) := by
  by_cases h : int_and evalFlags JS_EVAL_TYPE_MASK = JS_EVAL_TYPE_MODULE
  · cases hx : JS_IsException (E.JS_Eval ctx buffer (int_to_size bufferLength) filename
        (int_or evalFlags JS_EVAL_FLAG_COMPILE_ONLY)).1
    · right
      exact ⟨_, _, _, _, evalBuffer_val_module_compiled E ctx buffer bufferLength filename
        evalFlags h hx⟩
    · left
      exact ⟨_, _, _, evalBuffer_val_module_failed E ctx buffer bufferLength filename
        evalFlags h hx⟩
  · left
    exact ⟨_, _, _, evalBuffer_val_global E ctx buffer bufferLength filename evalFlags h⟩

theorem evalFile_of_load_none (module : Int) (h : (E.js_load_file ctx filename).1 = none) :
    QuickjsHelper_evalFile E ctx filename module =
      ⟨Outcome.exited 1, (E.js_load_file ctx filename).2,
        [Event.js_load_file filename false, Event.perror filename, Event.exit 1]⟩ := by
  rw [QuickjsHelper_evalFile]
  simp only [h]

theorem evalFile_of_load_some (module : Int) (f : LoadedFile)
    (h : (E.js_load_file ctx filename).1 = some f) :
    QuickjsHelper_evalFile E ctx filename module =
      ⟨Outcome.returned (QuickjsHelper_evalBuffer E (E.js_load_file ctx filename).2 f.buf
          (size_to_int f.buf_len) filename (evalFile_flags E filename f module).1).ret,
       E.js_free (QuickjsHelper_evalBuffer E (E.js_load_file ctx filename).2 f.buf
          (size_to_int f.buf_len) filename (evalFile_flags E filename f module).1).ctx f.buf,
       [Event.js_load_file filename true] ++ (evalFile_flags E filename f module).2 ++
         (QuickjsHelper_evalBuffer E (E.js_load_file ctx filename).2 f.buf
          (size_to_int f.buf_len) filename (evalFile_flags E filename f module).1).trace ++
         [Event.js_free f.buf]⟩ := by
  rw [QuickjsHelper_evalFile]
  simp only [h]

end Shapes

/-! ## Mode resolution -/

theorem evalFile_flags_fst {σ : Type} (E : Engine σ) (filename : String) (f : LoadedFile)
    (module : Int) :
    (evalFile_flags E filename f module).1 =
      if module < 0 then
        (if has_suffix filename ".mjs" = true ∨ E.JS_DetectModule f.buf f.buf_len = true
          then JS_EVAL_TYPE_MODULE else JS_EVAL_TYPE_GLOBAL)
      else (if module ≠ 0 then JS_EVAL_TYPE_MODULE else JS_EVAL_TYPE_GLOBAL) := by
  rw [evalFile_flags]
  by_cases hm : module < 0
  · by_cases hs : has_suffix filename ".mjs" = true
    · simp [hm, hs]
    · cases hd : E.JS_DetectModule f.buf f.buf_len <;> simp [hm, hs, hd]
  · simp [hm]

/-- C1: mode resolution in `QuickjsHelper_evalFile`, for every readable file: the run is the
run of `QuickjsHelper_evalBuffer` on the loaded buffer with the resolved evaluation type
(between the load and the release of the buffer); with a negative mode argument the type is
Module exactly when the filename ends with `.mjs` or the static scan reports true, and Global
otherwise; with mode 0 it is Global and with mode 1 it is Module, whatever the filename and
the content.  In particular `a.mjs` resolves to Module with any content; `a.js` containing
`export const x = 1;`, on which the scan reports true, resolves to Module; `a.js` containing
`var x = 1;`, on which the scan reports false, resolves to Global. -/
theorem evalFile_mode_resolution {σ : Type} (E : Engine σ) (ctx : σ) (filename : String)
    (module : Int) (f : LoadedFile) (hload : (E.js_load_file ctx filename).1 = some f) :
    QuickjsHelper_evalFile E ctx filename module =
      ⟨Outcome.returned (QuickjsHelper_evalBuffer E (E.js_load_file ctx filename).2 f.buf
          (size_to_int f.buf_len) filename (evalFile_flags E filename f module).1).ret,
       E.js_free (QuickjsHelper_evalBuffer E (E.js_load_file ctx filename).2 f.buf
          (size_to_int f.buf_len) filename (evalFile_flags E filename f module).1).ctx f.buf,
       [Event.js_load_file filename true] ++ (evalFile_flags E filename f module).2 ++
         (QuickjsHelper_evalBuffer E (E.js_load_file ctx filename).2 f.buf
          (size_to_int f.buf_len) filename (evalFile_flags E filename f module).1).trace ++
         [Event.js_free f.buf]⟩ ∧
    evalCalls (evalFile_flags E filename f module).2 = [] ∧
    ((evalFile_flags E filename f module).1 = JS_EVAL_TYPE_MODULE ∨
      (evalFile_flags E filename f module).1 = JS_EVAL_TYPE_GLOBAL) ∧
    (module < 0 →
      ((evalFile_flags E filename f module).1 = JS_EVAL_TYPE_MODULE ↔
        ((∃ stem : String, filename = stem ++ ".mjs") ∨
          E.JS_DetectModule f.buf f.buf_len = true))) ∧
    (module = 0 → (evalFile_flags E filename f module).1 = JS_EVAL_TYPE_GLOBAL) ∧
    (module = 1 → (evalFile_flags E filename f module).1 = JS_EVAL_TYPE_MODULE) ∧
    (module < 0 → filename = "a.mjs" →
      (evalFile_flags E filename f module).1 = JS_EVAL_TYPE_MODULE) ∧
    (module < 0 → filename = "a.js" → f.buf = "export const x = 1;" →
      E.JS_DetectModule f.buf f.buf_len = true →
      (evalFile_flags E filename f module).1 = JS_EVAL_TYPE_MODULE) ∧
    (module < 0 → filename = "a.js" → f.buf = "var x = 1;" →
      E.JS_DetectModule f.buf f.buf_len = false →
      (evalFile_flags E filename f module).1 = JS_EVAL_TYPE_GLOBAL) := by
  have hne : JS_EVAL_TYPE_GLOBAL ≠ JS_EVAL_TYPE_MODULE := by decide
  have key : module < 0 →
      ((evalFile_flags E filename f module).1 = JS_EVAL_TYPE_MODULE ↔
        (has_suffix filename ".mjs" = true ∨ E.JS_DetectModule f.buf f.buf_len = true)) := by
    intro hm
    rw [evalFile_flags_fst, if_pos hm]
    by_cases hc : has_suffix filename ".mjs" = true ∨ E.JS_DetectModule f.buf f.buf_len = true
    · rw [if_pos hc]; exact ⟨fun _ => hc, fun _ => rfl⟩
    · rw [if_neg hc]; exact ⟨fun h => absurd h hne, fun h => absurd h hc⟩
  refine ⟨evalFile_of_load_some E ctx filename module f hload, ?_, ?_, ?_, ?_, ?_, ?_, ?_, ?_⟩
  · rw [evalFile_flags]
    by_cases hm : module < 0
    · by_cases hs : has_suffix filename ".mjs" = true
      · simp [hm, hs, evalCalls]
      · simp [hm, hs, evalCalls]
    · simp [hm, evalCalls]
  · rw [evalFile_flags_fst]
    split
    · split
      · exact Or.inl rfl
      · exact Or.inr rfl
    · split
      · exact Or.inl rfl
      · exact Or.inr rfl
  · intro hm
    rw [key hm, has_suffix_iff]
  · intro hm
    rw [evalFile_flags_fst, hm, if_neg (by decide), if_neg (by decide)]
  · intro hm
    rw [evalFile_flags_fst, hm, if_neg (by decide), if_pos (by decide)]
  · intro hm hf
    rw [key hm, hf]
    exact Or.inl (by decide)
  · intro hm _ _ hd
    rw [key hm]
    exact Or.inr hd
  · intro hm hf _ hd
    have hs : has_suffix filename ".mjs" = false := by rw [hf]; decide
    rw [evalFile_flags_fst, if_pos hm, if_neg]
    rw [hs, hd]
    simp

theorem evalFile_mode_resolution_witness :
    (demoEngine.js_load_file 0 "a.js").1 = some ⟨"export const x = 1;", 19⟩ ∧
    (-1 : Int) < 0 ∧
    demoEngine.JS_DetectModule "export const x = 1;" 19 = true ∧
    (evalFile_flags demoEngine "a.js" ⟨"export const x = 1;", 19⟩ (-1)).1 =
      JS_EVAL_TYPE_MODULE :=
  ⟨by decide, by decide, by decide,
   (evalFile_mode_resolution demoEngine 0 "a.js" (-1) ⟨"export const x = 1;", 19⟩
      (by decide)).2.2.2.2.2.2.2.1 (by decide) rfl rfl (by decide)⟩

/-! ## Outcome normalization and the fatal path -/

section Outcome

variable {σ : Type} (E : Engine σ) (ctx : σ) (buffer : String) (bufferLength : Int)
  (filename : String) (evalFlags : Int)

/-- C2: outcome normalization in `QuickjsHelper_evalBuffer`, for every engine, context,
buffer, filename and flags: the final engine result `v` (the handle handed back by the last
engine call of the run: the execution, or the compilation when a module compile failed) is
the one released at the end; when `v` is the exception marker the status is -1 and the error
is dumped exactly once, otherwise the status is 0 and nothing is dumped; so the status is 0
or -1 and depends only on whether `v` is the exception marker.  And whenever
`QuickjsHelper_evalFile` returns, the file was loaded and the status is exactly the one
`QuickjsHelper_evalBuffer` produced on the loaded buffer. -/
theorem evalBuffer_outcome_normalization :
    (∃ v, lastResult (QuickjsHelper_evalBuffer E ctx buffer bufferLength filename
            evalFlags).trace = some v ∧
        released (QuickjsHelper_evalBuffer E ctx buffer bufferLength filename
            evalFlags).trace = [v] ∧
        ((JS_IsException v = true ∧
            (QuickjsHelper_evalBuffer E ctx buffer bufferLength filename evalFlags).ret = -1 ∧
            dumps (QuickjsHelper_evalBuffer E ctx buffer bufferLength filename
              evalFlags).trace = 1) ∨
         (JS_IsException v = false ∧
            (QuickjsHelper_evalBuffer E ctx buffer bufferLength filename evalFlags).ret = 0 ∧
            dumps (QuickjsHelper_evalBuffer E ctx buffer bufferLength filename
              evalFlags).trace = 0))) ∧
    ((QuickjsHelper_evalBuffer E ctx buffer bufferLength filename evalFlags).ret = 0 ∨
      (QuickjsHelper_evalBuffer E ctx buffer bufferLength filename evalFlags).ret = -1) ∧
    (∀ (module r : Int),
      (QuickjsHelper_evalFile E ctx filename module).ret = Outcome.returned r →
      ∃ f, (E.js_load_file ctx filename).1 = some f ∧
        r = (QuickjsHelper_evalBuffer E (E.js_load_file ctx filename).2 f.buf
          (size_to_int f.buf_len) filename (evalFile_flags E filename f module).1).ret) := by
  refine ⟨?_, ?_, ?_⟩
  · rw [evalBuffer_trace_eq, evalBuffer_ret_eq]
    rcases evalBuffer_val_cases E ctx buffer bufferLength filename evalFlags with
      ⟨v, c, fl, hv⟩ | ⟨u, v, c, fl, hv⟩
    · rw [hv]
      refine ⟨v, ?_⟩
      cases hx : JS_IsException v <;> simp [hx, lastResult, released, dumps]
    · rw [hv]
      refine ⟨v, ?_⟩
      cases hx : JS_IsException v <;> simp [hx, lastResult, released, dumps]
  · rw [evalBuffer_ret_eq]
    split
    · exact Or.inr rfl
    · exact Or.inl rfl
  · intro module r hr
    cases hl : (E.js_load_file ctx filename).1 with
    | none =>
      rw [evalFile_of_load_none E ctx filename module hl] at hr
      exact Outcome.noConfusion hr
    | some f =>
      rw [evalFile_of_load_some E ctx filename module f hl] at hr
      exact ⟨f, rfl, (Outcome.returned.inj hr).symm⟩

theorem evalBuffer_outcome_normalization_witness :
    (QuickjsHelper_evalFile demoEngine 0 "bad.js" 1).ret = Outcome.returned (-1) ∧
    ∃ f, (demoEngine.js_load_file 0 "bad.js").1 = some f ∧
      (-1 : Int) = (QuickjsHelper_evalBuffer demoEngine (demoEngine.js_load_file 0 "bad.js").2
        f.buf (size_to_int f.buf_len) "bad.js" (evalFile_flags demoEngine "bad.js" f 1).1).ret :=
  ⟨by decide,
   (evalBuffer_outcome_normalization demoEngine 0 "" 0 "bad.js" 0).2.2 1 (-1) (by decide)⟩

/-- C3: file-read failure is fatal and is the only fatal path: for every filename and mode
argument, `QuickjsHelper_evalFile` ends in `exit` (with status 1, after `perror` on the
filename) if and only if loading the file fails; in that case the only calls made are the
load, `perror` and `exit`: no mode detection, compilation, linkage or execution, and no
status is returned.  When loading succeeds the function returns a status, 0 or -1, and
`exit` is never called. -/
theorem evalFile_fatal_iff_load_fails (module : Int) :
    ((QuickjsHelper_evalFile E ctx filename module).ret = Outcome.exited 1 ↔
      (E.js_load_file ctx filename).1 = none) ∧
    ((∃ s, (QuickjsHelper_evalFile E ctx filename module).ret = Outcome.exited s) ↔
      (E.js_load_file ctx filename).1 = none) ∧
    ((QuickjsHelper_evalFile E ctx filename module).trace.any Event.isExit = true ↔
      (E.js_load_file ctx filename).1 = none) ∧
    ((E.js_load_file ctx filename).1 = none →
      (QuickjsHelper_evalFile E ctx filename module).trace =
        [Event.js_load_file filename false, Event.perror filename, Event.exit 1] ∧
      (QuickjsHelper_evalFile E ctx filename module).trace.any Event.isEvaluation = false ∧
      ∀ r, (QuickjsHelper_evalFile E ctx filename module).ret ≠ Outcome.returned r) ∧
    (∀ f, (E.js_load_file ctx filename).1 = some f →
      ((QuickjsHelper_evalFile E ctx filename module).ret = Outcome.returned 0 ∨
        (QuickjsHelper_evalFile E ctx filename module).ret = Outcome.returned (-1)) ∧
      (QuickjsHelper_evalFile E ctx filename module).trace.any Event.isExit = false) := by
  cases hl : (E.js_load_file ctx filename).1 with
  | none =>
    rw [evalFile_of_load_none E ctx filename module hl]
    simp [Event.isExit, Event.isEvaluation]
  | some f =>
    rw [evalFile_of_load_some E ctx filename module f hl]
    have hflags : ((evalFile_flags E filename f module).2).any Event.isExit = false := by
      rw [evalFile_flags]
      by_cases hm : module < 0
      · by_cases hs : has_suffix filename ".mjs" = true
        · simp [hm, hs, Event.isExit]
        · simp [hm, hs, Event.isExit]
      · simp [hm]
    have htr : ((QuickjsHelper_evalBuffer E (E.js_load_file ctx filename).2 f.buf
        (size_to_int f.buf_len) filename (evalFile_flags E filename f module).1).trace).any
        Event.isExit = false := by
      rw [evalBuffer_trace_eq]
      rcases evalBuffer_val_cases E (E.js_load_file ctx filename).2 f.buf
          (size_to_int f.buf_len) filename (evalFile_flags E filename f module).1 with
        ⟨v, c, fl, hv⟩ | ⟨u, v, c, fl, hv⟩
      · rw [hv]
        cases hx : JS_IsException v <;> simp [hx, Event.isExit]
      · rw [hv]
        cases hx : JS_IsException v <;> simp [hx, Event.isExit]
    have hret : (QuickjsHelper_evalBuffer E (E.js_load_file ctx filename).2 f.buf
        (size_to_int f.buf_len) filename (evalFile_flags E filename f module).1).ret = 0 ∨
        (QuickjsHelper_evalBuffer E (E.js_load_file ctx filename).2 f.buf
        (size_to_int f.buf_len) filename (evalFile_flags E filename f module).1).ret = -1 := by
      rw [evalBuffer_ret_eq]
      split
      · exact Or.inr rfl
      · exact Or.inl rfl
    refine ⟨?_, ?_, ?_, ?_, ?_⟩
    · simp
    · simp
    · simp only [List.any_append, hflags, htr]
      simp [Event.isExit]
    · intro h; exact Option.noConfusion h
    · intro g _
      refine ⟨?_, ?_⟩
      · rcases hret with h | h
        · left; rw [h]
        · right; rw [h]
      · simp only [List.any_append, hflags, htr]
        simp [Event.isExit]

theorem evalFile_fatal_iff_load_fails_witness :
    (demoEngine.js_load_file 0 "missing.js").1 = none ∧
    (QuickjsHelper_evalFile demoEngine 0 "missing.js" (-1)).trace =
      [Event.js_load_file "missing.js" false, Event.perror "missing.js", Event.exit 1] ∧
    (demoEngine.js_load_file 0 "bad.js").1 = some ⟨"syntax((", 8⟩ ∧
    (QuickjsHelper_evalFile demoEngine 0 "bad.js" (-1)).trace.any Event.isExit = false :=
  ⟨by decide,
   ((evalFile_fatal_iff_load_fails demoEngine 0 "missing.js" (-1)).2.2.2.1 (by decide)).1,
   by decide,
   ((evalFile_fatal_iff_load_fails demoEngine 0 "bad.js" (-1)).2.2.2.2 ⟨"syntax((", 8⟩
      (by decide)).2⟩

end Outcome


/-! ## Ownership and the placement of the module linkage -/

section Pipeline

variable {σ : Type} (E : Engine σ) (ctx : σ) (buffer : String) (bufferLength : Int)
  (filename : String) (evalFlags : Int)

/-- The trace of a run whose type bits do not select Module. -/
theorem evalBuffer_trace_global
    (h : int_and evalFlags JS_EVAL_TYPE_MASK ≠ JS_EVAL_TYPE_MODULE) :
    (QuickjsHelper_evalBuffer E ctx buffer bufferLength filename evalFlags).trace =
      [Event.JS_Eval buffer (int_to_size bufferLength) filename evalFlags
          (E.JS_Eval ctx buffer (int_to_size bufferLength) filename evalFlags).1] ++
        (if JS_IsException (E.JS_Eval ctx buffer (int_to_size bufferLength) filename
              evalFlags).1
          then [Event.js_std_dump_error] else []) ++
        [Event.JS_FreeValue
          (E.JS_Eval ctx buffer (int_to_size bufferLength) filename evalFlags).1] := by
  rw [evalBuffer_trace_eq, evalBuffer_val_global E ctx buffer bufferLength filename evalFlags h]

/-- The trace of a Module run whose compile step hands back the exception marker. -/
theorem evalBuffer_trace_module_failed
    (h : int_and evalFlags JS_EVAL_TYPE_MASK = JS_EVAL_TYPE_MODULE)
    (hx : JS_IsException (E.JS_Eval ctx buffer (int_to_size bufferLength) filename
      (int_or evalFlags JS_EVAL_FLAG_COMPILE_ONLY)).1 = true) :
    (QuickjsHelper_evalBuffer E ctx buffer bufferLength filename evalFlags).trace =
      [Event.JS_Eval buffer (int_to_size bufferLength) filename
          (int_or evalFlags JS_EVAL_FLAG_COMPILE_ONLY)
          (E.JS_Eval ctx buffer (int_to_size bufferLength) filename
            (int_or evalFlags JS_EVAL_FLAG_COMPILE_ONLY)).1,
       Event.js_std_dump_error,
       Event.JS_FreeValue (E.JS_Eval ctx buffer (int_to_size bufferLength) filename
            (int_or evalFlags JS_EVAL_FLAG_COMPILE_ONLY)).1] := by
  rw [evalBuffer_trace_eq,
    evalBuffer_val_module_failed E ctx buffer bufferLength filename evalFlags h hx]
  simp only [hx, if_true, List.cons_append, List.nil_append]

/-- The trace of a Module run whose compile step succeeds. -/
theorem evalBuffer_trace_module_compiled
    (h : int_and evalFlags JS_EVAL_TYPE_MASK = JS_EVAL_TYPE_MODULE)
    (hx : JS_IsException (E.JS_Eval ctx buffer (int_to_size bufferLength) filename
      (int_or evalFlags JS_EVAL_FLAG_COMPILE_ONLY)).1 = false) :
    ∃ res, (QuickjsHelper_evalBuffer E ctx buffer bufferLength filename evalFlags).trace =
      [Event.JS_Eval buffer (int_to_size bufferLength) filename
          (int_or evalFlags JS_EVAL_FLAG_COMPILE_ONLY)
          (E.JS_Eval ctx buffer (int_to_size bufferLength) filename
            (int_or evalFlags JS_EVAL_FLAG_COMPILE_ONLY)).1,
       Event.js_module_set_import_meta (E.JS_Eval ctx buffer (int_to_size bufferLength)
          filename (int_or evalFlags JS_EVAL_FLAG_COMPILE_ONLY)).1 true true,
       Event.JS_EvalFunction (E.JS_Eval ctx buffer (int_to_size bufferLength) filename
            (int_or evalFlags JS_EVAL_FLAG_COMPILE_ONLY)).1 res] ++
        (if JS_IsException res then [Event.js_std_dump_error] else []) ++
        [Event.JS_FreeValue res] := by
  refine ⟨(E.JS_EvalFunction (E.js_module_set_import_meta
      (E.JS_Eval ctx buffer (int_to_size bufferLength) filename
        (int_or evalFlags JS_EVAL_FLAG_COMPILE_ONLY)).2
      (E.JS_Eval ctx buffer (int_to_size bufferLength) filename
        (int_or evalFlags JS_EVAL_FLAG_COMPILE_ONLY)).1 true true)
      (E.JS_Eval ctx buffer (int_to_size bufferLength) filename
        (int_or evalFlags JS_EVAL_FLAG_COMPILE_ONLY)).1).1, ?_⟩
  rw [evalBuffer_trace_eq,
    evalBuffer_val_module_compiled E ctx buffer bufferLength filename evalFlags h hx]

/-- C4: exactly-once release in `QuickjsHelper_evalBuffer`, on every path: along the trace
no handle is used or retired unless the pipeline owns it and at the end the pipeline owns
nothing, so every handle the engine hands to the pipeline is retired exactly once; the only
release is the single `JS_FreeValue` at the very end, on the final engine result; when a
module compiles, the compiled unit is borrowed by the linkage call and consumed by
`JS_EvalFunction`, and it is the only handle consumed; when the module compile fails, or in
a non-module run, nothing is consumed and the result of the single `JS_Eval` is the handle
released. -/
theorem evalBuffer_releases_exactly_once :
    ownRun [] (QuickjsHelper_evalBuffer E ctx buffer bufferLength filename evalFlags).trace =
      some [] ∧
    (∃ v, lastResult (QuickjsHelper_evalBuffer E ctx buffer bufferLength filename
            evalFlags).trace = some v ∧
        released (QuickjsHelper_evalBuffer E ctx buffer bufferLength filename
            evalFlags).trace = [v] ∧
        (QuickjsHelper_evalBuffer E ctx buffer bufferLength filename
            evalFlags).trace.getLast? = some (Event.JS_FreeValue v)) ∧
    (int_and evalFlags JS_EVAL_TYPE_MASK = JS_EVAL_TYPE_MODULE →
      JS_IsException (E.JS_Eval ctx buffer (int_to_size bufferLength) filename
        (int_or evalFlags JS_EVAL_FLAG_COMPILE_ONLY)).1 = false →
      consumed (QuickjsHelper_evalBuffer E ctx buffer bufferLength filename
          evalFlags).trace =
        [(E.JS_Eval ctx buffer (int_to_size bufferLength) filename
          (int_or evalFlags JS_EVAL_FLAG_COMPILE_ONLY)).1] ∧
      linkages (QuickjsHelper_evalBuffer E ctx buffer bufferLength filename
          evalFlags).trace =
        [((E.JS_Eval ctx buffer (int_to_size bufferLength) filename
          (int_or evalFlags JS_EVAL_FLAG_COMPILE_ONLY)).1, true, true)]) ∧
    (int_and evalFlags JS_EVAL_TYPE_MASK = JS_EVAL_TYPE_MODULE →
      JS_IsException (E.JS_Eval ctx buffer (int_to_size bufferLength) filename
        (int_or evalFlags JS_EVAL_FLAG_COMPILE_ONLY)).1 = true →
      consumed (QuickjsHelper_evalBuffer E ctx buffer bufferLength filename
          evalFlags).trace = [] ∧
      released (QuickjsHelper_evalBuffer E ctx buffer bufferLength filename
          evalFlags).trace =
        [(E.JS_Eval ctx buffer (int_to_size bufferLength) filename
          (int_or evalFlags JS_EVAL_FLAG_COMPILE_ONLY)).1]) ∧
    (int_and evalFlags JS_EVAL_TYPE_MASK ≠ JS_EVAL_TYPE_MODULE →
      consumed (QuickjsHelper_evalBuffer E ctx buffer bufferLength filename
          evalFlags).trace = [] ∧
      released (QuickjsHelper_evalBuffer E ctx buffer bufferLength filename
          evalFlags).trace =
        [(E.JS_Eval ctx buffer (int_to_size bufferLength) filename evalFlags).1]) := by
  refine ⟨?_, ?_, ?_, ?_, ?_⟩
  · rw [evalBuffer_trace_eq]
    rcases evalBuffer_val_cases E ctx buffer bufferLength filename evalFlags with
      ⟨v, c, fl, hv⟩ | ⟨u, v, c, fl, hv⟩
    · rw [hv]
      cases hx : JS_IsException v <;> simp [hx, ownRun, ownStep]
    · rw [hv]
      cases hx : JS_IsException v <;> simp [hx, ownRun, ownStep]
  · rw [evalBuffer_trace_eq]
    rcases evalBuffer_val_cases E ctx buffer bufferLength filename evalFlags with
      ⟨v, c, fl, hv⟩ | ⟨u, v, c, fl, hv⟩
    · rw [hv]
      refine ⟨v, ?_⟩
      cases hx : JS_IsException v <;> simp [hx, lastResult, released]
    · rw [hv]
      refine ⟨v, ?_⟩
      cases hx : JS_IsException v <;> simp [hx, lastResult, released]
  · intro h hx
    obtain ⟨res, hres⟩ :=
      evalBuffer_trace_module_compiled E ctx buffer bufferLength filename evalFlags h hx
    rw [hres]
    cases hr : JS_IsException res <;> simp [hr, consumed, linkages]
  · intro h hx
    rw [evalBuffer_trace_module_failed E ctx buffer bufferLength filename evalFlags h hx]
    simp [consumed, released]
  · intro h
    rw [evalBuffer_trace_global E ctx buffer bufferLength filename evalFlags h]
    cases hr : JS_IsException
      (E.JS_Eval ctx buffer (int_to_size bufferLength) filename evalFlags).1 <;>
      simp [hr, consumed, released]

theorem evalBuffer_releases_exactly_once_witness :
    int_and 1 JS_EVAL_TYPE_MASK = JS_EVAL_TYPE_MODULE ∧
    JS_IsException (demoEngine.JS_Eval 0 "export default 1+1;" (int_to_size 19) "m.js"
        (int_or 1 JS_EVAL_FLAG_COMPILE_ONLY)).1 = false ∧
    consumed (QuickjsHelper_evalBuffer demoEngine 0 "export default 1+1;" 19 "m.js" 1).trace =
      [(demoEngine.JS_Eval 0 "export default 1+1;" (int_to_size 19) "m.js"
        (int_or 1 JS_EVAL_FLAG_COMPILE_ONLY)).1] :=
  ⟨by decide, by decide,
   ((evalBuffer_releases_exactly_once demoEngine 0 "export default 1+1;" 19 "m.js" 1).2.2.1
      (by decide) (by decide)).1⟩

/-- C5: placement of the module linkage in `QuickjsHelper_evalBuffer`.  When the type bits
of the flags select Module and the compile-only call does not hand back the exception
marker, the run starts with the compile-only `JS_Eval` (the flags of the caller with the compile-only
flag added), then `js_module_set_import_meta` on the compiled unit with both booleans true,
then `JS_EvalFunction` on that same unit, and what follows contains no further evaluation,
linkage or execution call.  In Module mode with a failed compile there is the compile-only
`JS_Eval` alone: neither linkage nor execution.  When the type bits do not select Module
there is a single `JS_Eval` with exactly the flags of the caller and no linkage or execution.  So
the linkage is performed exactly in the first case, and then exactly once. -/
theorem evalBuffer_linkage_placement :
    (int_and evalFlags JS_EVAL_TYPE_MASK = JS_EVAL_TYPE_MODULE →
      JS_IsException (E.JS_Eval ctx buffer (int_to_size bufferLength) filename
        (int_or evalFlags JS_EVAL_FLAG_COMPILE_ONLY)).1 = false →
      ∃ res rest,
        (QuickjsHelper_evalBuffer E ctx buffer bufferLength filename evalFlags).trace =
          [Event.JS_Eval buffer (int_to_size bufferLength) filename
              (int_or evalFlags JS_EVAL_FLAG_COMPILE_ONLY)
              (E.JS_Eval ctx buffer (int_to_size bufferLength) filename
                (int_or evalFlags JS_EVAL_FLAG_COMPILE_ONLY)).1,
           Event.js_module_set_import_meta (E.JS_Eval ctx buffer (int_to_size bufferLength)
              filename (int_or evalFlags JS_EVAL_FLAG_COMPILE_ONLY)).1 true true,
           Event.JS_EvalFunction (E.JS_Eval ctx buffer (int_to_size bufferLength) filename
              (int_or evalFlags JS_EVAL_FLAG_COMPILE_ONLY)).1 res] ++ rest ∧
        evalCalls rest = [] ∧ linkages rest = [] ∧ consumed rest = []) ∧
    (int_and evalFlags JS_EVAL_TYPE_MASK = JS_EVAL_TYPE_MODULE →
      JS_IsException (E.JS_Eval ctx buffer (int_to_size bufferLength) filename
        (int_or evalFlags JS_EVAL_FLAG_COMPILE_ONLY)).1 = true →
      evalCalls (QuickjsHelper_evalBuffer E ctx buffer bufferLength filename
          evalFlags).trace = [int_or evalFlags JS_EVAL_FLAG_COMPILE_ONLY] ∧
      linkages (QuickjsHelper_evalBuffer E ctx buffer bufferLength filename
          evalFlags).trace = [] ∧
      consumed (QuickjsHelper_evalBuffer E ctx buffer bufferLength filename
          evalFlags).trace = []) ∧
    (int_and evalFlags JS_EVAL_TYPE_MASK ≠ JS_EVAL_TYPE_MODULE →
      evalCalls (QuickjsHelper_evalBuffer E ctx buffer bufferLength filename
          evalFlags).trace = [evalFlags] ∧
      linkages (QuickjsHelper_evalBuffer E ctx buffer bufferLength filename
          evalFlags).trace = [] ∧
      consumed (QuickjsHelper_evalBuffer E ctx buffer bufferLength filename
          evalFlags).trace = []) ∧
    (linkages (QuickjsHelper_evalBuffer E ctx buffer bufferLength filename
          evalFlags).trace ≠ [] ↔
      (int_and evalFlags JS_EVAL_TYPE_MASK = JS_EVAL_TYPE_MODULE ∧
        JS_IsException (E.JS_Eval ctx buffer (int_to_size bufferLength) filename
          (int_or evalFlags JS_EVAL_FLAG_COMPILE_ONLY)).1 = false)) ∧
    (linkages (QuickjsHelper_evalBuffer E ctx buffer bufferLength filename
          evalFlags).trace).length ≤ 1 := by
  have hA : int_and evalFlags JS_EVAL_TYPE_MASK = JS_EVAL_TYPE_MODULE →
      JS_IsException (E.JS_Eval ctx buffer (int_to_size bufferLength) filename
        (int_or evalFlags JS_EVAL_FLAG_COMPILE_ONLY)).1 = false →
      linkages (QuickjsHelper_evalBuffer E ctx buffer bufferLength filename
          evalFlags).trace =
        [((E.JS_Eval ctx buffer (int_to_size bufferLength) filename
          (int_or evalFlags JS_EVAL_FLAG_COMPILE_ONLY)).1, true, true)] := by
    intro h hx
    obtain ⟨res, hres⟩ :=
      evalBuffer_trace_module_compiled E ctx buffer bufferLength filename evalFlags h hx
    rw [hres]
    cases hr : JS_IsException res <;> simp [hr, linkages]
  have hB : int_and evalFlags JS_EVAL_TYPE_MASK = JS_EVAL_TYPE_MODULE →
      JS_IsException (E.JS_Eval ctx buffer (int_to_size bufferLength) filename
        (int_or evalFlags JS_EVAL_FLAG_COMPILE_ONLY)).1 = true →
      evalCalls (QuickjsHelper_evalBuffer E ctx buffer bufferLength filename
          evalFlags).trace = [int_or evalFlags JS_EVAL_FLAG_COMPILE_ONLY] ∧
      linkages (QuickjsHelper_evalBuffer E ctx buffer bufferLength filename
          evalFlags).trace = [] ∧
      consumed (QuickjsHelper_evalBuffer E ctx buffer bufferLength filename
          evalFlags).trace = [] := by
    intro h hx
    rw [evalBuffer_trace_module_failed E ctx buffer bufferLength filename evalFlags h hx]
    simp [evalCalls, linkages, consumed]
  have hC : int_and evalFlags JS_EVAL_TYPE_MASK ≠ JS_EVAL_TYPE_MODULE →
      evalCalls (QuickjsHelper_evalBuffer E ctx buffer bufferLength filename
          evalFlags).trace = [evalFlags] ∧
      linkages (QuickjsHelper_evalBuffer E ctx buffer bufferLength filename
          evalFlags).trace = [] ∧
      consumed (QuickjsHelper_evalBuffer E ctx buffer bufferLength filename
          evalFlags).trace = [] := by
    intro h
    rw [evalBuffer_trace_global E ctx buffer bufferLength filename evalFlags h]
    cases hr : JS_IsException
      (E.JS_Eval ctx buffer (int_to_size bufferLength) filename evalFlags).1 <;>
      simp [hr, evalCalls, linkages, consumed]
  refine ⟨?_, hB, hC, ?_, ?_⟩
  · intro h hx
    obtain ⟨res, hres⟩ :=
      evalBuffer_trace_module_compiled E ctx buffer bufferLength filename evalFlags h hx
    refine ⟨res, (if JS_IsException res then [Event.js_std_dump_error] else []) ++
      [Event.JS_FreeValue res], ?_, ?_, ?_, ?_⟩
    · rw [hres, List.append_assoc]
    · cases hr : JS_IsException res <;> simp [evalCalls]
    · cases hr : JS_IsException res <;> simp [linkages]
    · cases hr : JS_IsException res <;> simp [consumed]
  · by_cases h : int_and evalFlags JS_EVAL_TYPE_MASK = JS_EVAL_TYPE_MODULE
    · cases hx : JS_IsException (E.JS_Eval ctx buffer (int_to_size bufferLength) filename
          (int_or evalFlags JS_EVAL_FLAG_COMPILE_ONLY)).1
      · rw [hA h hx]
        simp [h]
      · rw [(hB h hx).2.1]
        simp
    · rw [(hC h).2.1]
      simp [h]
  · by_cases h : int_and evalFlags JS_EVAL_TYPE_MASK = JS_EVAL_TYPE_MODULE
    · cases hx : JS_IsException (E.JS_Eval ctx buffer (int_to_size bufferLength) filename
          (int_or evalFlags JS_EVAL_FLAG_COMPILE_ONLY)).1
      · rw [hA h hx]
        simp
      · rw [(hB h hx).2.1]
        simp
    · rw [(hC h).2.1]
      simp

theorem evalBuffer_linkage_placement_witness :
    int_and 0 JS_EVAL_TYPE_MASK ≠ JS_EVAL_TYPE_MODULE ∧
    evalCalls (QuickjsHelper_evalBuffer demoEngine 0 "export default 1;" 17 "g.js" 0).trace =
      [0] ∧
    linkages (QuickjsHelper_evalBuffer demoEngine 0 "export default 1;" 17 "g.js" 0).trace =
      [] :=
  ⟨by decide,
   ((evalBuffer_linkage_placement demoEngine 0 "export default 1;" 17 "g.js" 0).2.2.1
      (by decide)).1,
   ((evalBuffer_linkage_placement demoEngine 0 "export default 1;" 17 "g.js" 0).2.2.1
      (by decide)).2.1⟩

/-- C9, as stated, fails: `QuickjsHelper_evalBuffer` called with -1 does not resolve the mode
from the filename and the text.  For the file name `a.mjs` and the text
`export default 1+1;`, on both of which detection says Module, the run with -1 is a single
`JS_Eval` with flags -1 and the release of its result, with no linkage and no execution
call; it differs from the Module run. -/
theorem evalBuffer_auto_detect_counterexample :
    has_suffix "a.mjs" ".mjs" = true ∧
    demoEngine.JS_DetectModule "export default 1+1;" 19 = true ∧
    (QuickjsHelper_evalBuffer demoEngine 0 "export default 1+1;" 19 "a.mjs" (-1)).trace =
      [Event.JS_Eval "export default 1+1;" 19 "a.mjs" (-1) ⟨0, JS_TAG_MODULE⟩,
       Event.JS_FreeValue ⟨0, JS_TAG_MODULE⟩] ∧
    linkages (QuickjsHelper_evalBuffer demoEngine 0 "export default 1+1;" 19 "a.mjs"
      (-1)).trace = [] ∧
    (QuickjsHelper_evalBuffer demoEngine 0 "export default 1+1;" 19 "a.mjs" (-1)).trace ≠
      (QuickjsHelper_evalBuffer demoEngine 0 "export default 1+1;" 19 "a.mjs"
        JS_EVAL_TYPE_MODULE).trace := by
  decide

/-- C9, amended: the mode parameter with the values auto-detect (negative), global (0) and
module (1) is the one of `QuickjsHelper_evalFile`.  `QuickjsHelper_evalBuffer` takes the
evaluation flags of the engine instead: with flags 0 the text is run by a single `JS_Eval` with
flags 0 (global script); with flags 1 it goes through the compile-only `JS_Eval`, and, when
that does not fail, the linkage and `JS_EvalFunction` on the compiled unit; with flags -1
the type bits are 3, not Module, and the text is run by a single `JS_Eval` with flags -1, no
linkage and no execution call, whatever the filename and the text: nothing is detected. -/
theorem evalBuffer_takes_flags_not_mode (module : Int) :
    (evalCalls (QuickjsHelper_evalBuffer E ctx buffer bufferLength filename 0).trace = [0] ∧
      linkages (QuickjsHelper_evalBuffer E ctx buffer bufferLength filename 0).trace = [] ∧
      consumed (QuickjsHelper_evalBuffer E ctx buffer bufferLength filename 0).trace = []) ∧
    (evalCalls (QuickjsHelper_evalBuffer E ctx buffer bufferLength filename 1).trace = [33] ∧
      (JS_IsException (E.JS_Eval ctx buffer (int_to_size bufferLength) filename 33).1 = false →
        linkages (QuickjsHelper_evalBuffer E ctx buffer bufferLength filename 1).trace =
          [((E.JS_Eval ctx buffer (int_to_size bufferLength) filename 33).1, true, true)] ∧
        consumed (QuickjsHelper_evalBuffer E ctx buffer bufferLength filename 1).trace =
          [(E.JS_Eval ctx buffer (int_to_size bufferLength) filename 33).1])) ∧
    (evalCalls (QuickjsHelper_evalBuffer E ctx buffer bufferLength filename (-1)).trace =
        [-1] ∧
      linkages (QuickjsHelper_evalBuffer E ctx buffer bufferLength filename (-1)).trace =
        [] ∧
      consumed (QuickjsHelper_evalBuffer E ctx buffer bufferLength filename (-1)).trace =
        []) ∧
    (∀ f : LoadedFile,
      (module < 0 →
        ((evalFile_flags E filename f module).1 = JS_EVAL_TYPE_MODULE ↔
          (has_suffix filename ".mjs" = true ∨ E.JS_DetectModule f.buf f.buf_len = true))) ∧
      (module = 0 → (evalFile_flags E filename f module).1 = JS_EVAL_TYPE_GLOBAL) ∧
      (module = 1 → (evalFile_flags E filename f module).1 = JS_EVAL_TYPE_MODULE)) := by
  have hG : ∀ fl : Int, int_and fl JS_EVAL_TYPE_MASK ≠ JS_EVAL_TYPE_MODULE →
      evalCalls (QuickjsHelper_evalBuffer E ctx buffer bufferLength filename fl).trace =
        [fl] ∧
      linkages (QuickjsHelper_evalBuffer E ctx buffer bufferLength filename fl).trace = [] ∧
      consumed (QuickjsHelper_evalBuffer E ctx buffer bufferLength filename fl).trace =
        [] := by
    intro fl h
    rw [evalBuffer_trace_global E ctx buffer bufferLength filename fl h]
    cases hr : JS_IsException
      (E.JS_Eval ctx buffer (int_to_size bufferLength) filename fl).1 <;>
      simp [hr, evalCalls, linkages, consumed]
  have h1 : int_and 1 JS_EVAL_TYPE_MASK = JS_EVAL_TYPE_MODULE := by decide
  have h33 : int_or 1 JS_EVAL_FLAG_COMPILE_ONLY = 33 := by decide
  have hne : JS_EVAL_TYPE_GLOBAL ≠ JS_EVAL_TYPE_MODULE := by decide
  refine ⟨hG 0 (by decide), ⟨?_, ?_⟩, hG (-1) (by decide), ?_⟩
  · cases hx : JS_IsException (E.JS_Eval ctx buffer (int_to_size bufferLength) filename
        (int_or 1 JS_EVAL_FLAG_COMPILE_ONLY)).1
    · obtain ⟨res, hres⟩ :=
        evalBuffer_trace_module_compiled E ctx buffer bufferLength filename 1 h1 hx
      rw [hres, h33]
      cases hr : JS_IsException res <;> simp [hr, evalCalls]
    · rw [evalBuffer_trace_module_failed E ctx buffer bufferLength filename 1 h1 hx, h33]
      simp [evalCalls]
  · intro hx
    rw [← h33] at hx ⊢
    obtain ⟨res, hres⟩ :=
      evalBuffer_trace_module_compiled E ctx buffer bufferLength filename 1 h1 hx
    rw [hres]
    cases hr : JS_IsException res <;> simp [hr, linkages, consumed]
  · intro f
    refine ⟨?_, ?_, ?_⟩
    · intro hm
      rw [evalFile_flags_fst, if_pos hm]
      by_cases hc : has_suffix filename ".mjs" = true ∨
          E.JS_DetectModule f.buf f.buf_len = true
      · rw [if_pos hc]; exact ⟨fun _ => hc, fun _ => rfl⟩
      · rw [if_neg hc]; exact ⟨fun h => absurd h hne, fun h => absurd h hc⟩
    · intro hm
      rw [evalFile_flags_fst, hm, if_neg (by decide), if_neg (by decide)]
    · intro hm
      rw [evalFile_flags_fst, hm, if_neg (by decide), if_pos (by decide)]

theorem evalBuffer_takes_flags_not_mode_witness :
    JS_IsException (demoEngine.JS_Eval 0 "export default 1+1;" (int_to_size 19) "a.mjs"
      33).1 = false ∧
    linkages (QuickjsHelper_evalBuffer demoEngine 0 "export default 1+1;" 19 "a.mjs"
      1).trace =
      [((demoEngine.JS_Eval 0 "export default 1+1;" (int_to_size 19) "a.mjs" 33).1,
        true, true)] ∧
    evalCalls (QuickjsHelper_evalBuffer demoEngine 0 "export default 1+1;" 19 "a.mjs"
      (-1)).trace = [-1] :=
  ⟨by decide,
   ((evalBuffer_takes_flags_not_mode demoEngine 0 "export default 1+1;" 19 "a.mjs" 0).2.1.2
      (by decide)).1,
   (evalBuffer_takes_flags_not_mode demoEngine 0 "export default 1+1;" 19 "a.mjs" 0).2.2.1.1⟩

theorem evalLengths_append (s t : List Event) :
    evalLengths (s ++ t) = evalLengths s ++ evalLengths t := by
  induction s with
  | nil => rfl
  | cons e s ih => cases e <;> simp [evalLengths, ih]

theorem evalLengths_evalFile_flags (f : LoadedFile) (module : Int) :
    evalLengths (evalFile_flags E filename f module).2 = [] := by
  rw [evalFile_flags]
  by_cases hm : module < 0
  · by_cases hs : has_suffix filename ".mjs" = true
    · simp [hm, hs, evalLengths]
    · simp [hm, hs, evalLengths]
  · simp [hm, evalLengths]

theorem evalLengths_evalBuffer :
    evalLengths (QuickjsHelper_evalBuffer E ctx buffer bufferLength filename evalFlags).trace =
      [int_to_size bufferLength] := by
  rw [evalBuffer_trace_eq]
  rcases evalBuffer_val_cases E ctx buffer bufferLength filename evalFlags with
    ⟨v, c, fl, hv⟩ | ⟨u, v, c, fl, hv⟩
  · rw [hv]
    cases hx : JS_IsException v <;> simp [hx, evalLengths]
  · rw [hv]
    cases hx : JS_IsException v <;> simp [hx, evalLengths]

theorem int_to_size_size_to_int_two_pow_31 :
    int_to_size (size_to_int (2 ^ 31)) = 2 ^ 64 - 2 ^ 31 := by
  decide

/-- C10: length narrowing between `QuickjsHelper_evalFile` and the engine.  For every loaded
file, the run makes exactly one `JS_Eval` call and the length it is given is the loaded
length `buf_len` taken through `int` and back to `size_t`.  For every loaded length
`n ≤ 2^31 - 1` that is exactly `n`, the empty buffer (`n = 0`) included, which is evaluated
as any other; the bound is tight: for `n = 2^31` the engine is given `2^64 - 2^31`, which
differs from `n`. -/
theorem evalFile_length_narrowing (module : Int) (f : LoadedFile)
    (hload : (E.js_load_file ctx filename).1 = some f) :
    evalLengths (QuickjsHelper_evalFile E ctx filename module).trace =
      [int_to_size (size_to_int f.buf_len)] ∧
    (f.buf_len ≤ 2 ^ 31 - 1 →
      evalLengths (QuickjsHelper_evalFile E ctx filename module).trace = [f.buf_len]) ∧
    (f.buf_len = 0 →
      evalLengths (QuickjsHelper_evalFile E ctx filename module).trace = [0]) ∧
    (f.buf_len = 2 ^ 31 →
      evalLengths (QuickjsHelper_evalFile E ctx filename module).trace =
        [2 ^ 64 - 2 ^ 31] ∧
      evalLengths (QuickjsHelper_evalFile E ctx filename module).trace ≠ [f.buf_len]) := by
  have h0 : evalLengths (QuickjsHelper_evalFile E ctx filename module).trace =
      [int_to_size (size_to_int f.buf_len)] := by
    rw [evalFile_of_load_some E ctx filename module f hload]
    simp only [evalLengths_append, evalLengths_evalFile_flags, evalLengths_evalBuffer]
    simp [evalLengths]
  refine ⟨h0, ?_, ?_, ?_⟩
  · intro h
    rw [h0, int_to_size_size_to_int f.buf_len h]
  · intro h
    rw [h0, int_to_size_size_to_int f.buf_len (by rw [h]; decide), h]
  · intro h
    rw [h0, h, int_to_size_size_to_int_two_pow_31]
    exact ⟨rfl, by decide⟩

theorem evalFile_length_narrowing_witness :
    (demoEngine.js_load_file 0 "empty.js").1 = some ⟨"", 0⟩ ∧
    evalLengths (QuickjsHelper_evalFile demoEngine 0 "empty.js" (-1)).trace = [0] ∧
    (demoEngine.js_load_file 0 "huge.js").1 = some ⟨hugeBuffer, 2 ^ 31⟩ ∧
    evalLengths (QuickjsHelper_evalFile demoEngine 0 "huge.js" 0).trace =
      [2 ^ 64 - 2 ^ 31] :=
  ⟨by decide,
   (evalFile_length_narrowing demoEngine 0 "empty.js" (-1) ⟨"", 0⟩ (by decide)).2.2.1 rfl,
   rfl,
   ((evalFile_length_narrowing demoEngine 0 "huge.js" 0 ⟨hugeBuffer, 2 ^ 31⟩ rfl).2.2.2
      rfl).1⟩

end Pipeline


/-! ## The value layer -/

theorem JS_MKVAL_tag (tag val : Int) : (JS_MKVAL tag val).tag = tag := rfl

theorem JS_DupValueRT_of_ref (rt : JSRuntime) (h : JSValue)
    (hh : JS_VALUE_HAS_REF_COUNT h = true) :
    JS_DupValueRT rt h =
      (h, { rt with ref_count := Function.update rt.ref_count h.u (rt.ref_count h.u + 1) }) := by
  rw [JS_DupValueRT, if_pos hh]

theorem JS_FreeValueRT_ref_count (rt : JSRuntime) (h : JSValue)
    (hh : JS_VALUE_HAS_REF_COUNT h = true) (p : Nat) :
    (JS_FreeValueRT rt h).ref_count p =
      Function.update rt.ref_count h.u (rt.ref_count h.u - 1) p := by
  rw [JS_FreeValueRT, if_pos hh]
  by_cases hn : rt.ref_count h.u - 1 ≤ 0
  · simp only [hn, if_true]
  · simp only [hn, if_false]

theorem JS_FreeValueRT_of_pos (rt : JSRuntime) (h : JSValue)
    (hh : JS_VALUE_HAS_REF_COUNT h = true) (hn : ¬ rt.ref_count h.u - 1 ≤ 0) :
    JS_FreeValueRT rt h =
      { rt with ref_count := Function.update rt.ref_count h.u (rt.ref_count h.u - 1) } := by
  rw [JS_FreeValueRT, if_pos hh]
  simp only [hn, if_false]

/-- C6, as stated, fails: an object with reference count 2, after duplicate and release of
both the original and the duplicate handle, has reference count 1, not 2; through the
runtime entry points and through the context entry points alike. -/
theorem dup_release_both_counterexample :
    JS_VALUE_HAS_REF_COUNT demoObject = true ∧
    demoRuntime.ref_count demoObject.u = 2 ∧
    (QuickJS_FreeValueRT
        (QuickJS_FreeValueRT (QuickJS_DupValueRT demoRuntime demoObject).2 demoObject)
        (QuickJS_DupValueRT demoRuntime demoObject).1).ref_count demoObject.u = 1 ∧
    (QuickJS_FreeValue
        (QuickJS_FreeValue (QuickJS_DupValue ⟨demoRuntime⟩ demoObject) demoObject)
        demoObject).rt.ref_count demoObject.u = 1 := by
  decide

/-- C6, amended: for every heap-backed handle `h` whose object has reference count `n`,
duplicate raises the count to `n + 1` (`QuickJS_DupValueRT` hands back `h` itself, a handle
on the same object); releasing the duplicate brings the count back to exactly `n`, and when
`n ≥ 1` the runtime is as it was before (net zero for the pair duplicate / release);
releasing the original as well leaves `n - 1`; the counts of the other objects are never
touched. -/
theorem dup_release_round_trip (rt : JSRuntime) (h : JSValue)
    (hh : JS_VALUE_HAS_REF_COUNT h = true) :
    (QuickJS_DupValueRT rt h).1 = h ∧
    (QuickJS_DupValueRT rt h).2.ref_count h.u = rt.ref_count h.u + 1 ∧
    (QuickJS_DupValue ⟨rt⟩ h).rt.ref_count h.u = rt.ref_count h.u + 1 ∧
    (QuickJS_FreeValueRT (QuickJS_DupValueRT rt h).2 (QuickJS_DupValueRT rt h).1).ref_count
        h.u = rt.ref_count h.u ∧
    (QuickJS_FreeValue (QuickJS_DupValue ⟨rt⟩ h) h).rt.ref_count h.u = rt.ref_count h.u ∧
    (1 ≤ rt.ref_count h.u →
      QuickJS_FreeValueRT (QuickJS_DupValueRT rt h).2 (QuickJS_DupValueRT rt h).1 = rt) ∧
    (QuickJS_FreeValueRT (QuickJS_FreeValueRT (QuickJS_DupValueRT rt h).2 h)
        (QuickJS_DupValueRT rt h).1).ref_count h.u = rt.ref_count h.u - 1 ∧
    (QuickJS_FreeValue (QuickJS_FreeValue (QuickJS_DupValue ⟨rt⟩ h) h) h).rt.ref_count h.u =
      rt.ref_count h.u - 1 ∧
    (∀ p, p ≠ h.u →
      (QuickJS_FreeValueRT (QuickJS_FreeValueRT (QuickJS_DupValueRT rt h).2 h)
        (QuickJS_DupValueRT rt h).1).ref_count p = rt.ref_count p) := by
  have hd : QuickJS_DupValueRT rt h =
      (h, { rt with ref_count := Function.update rt.ref_count h.u (rt.ref_count h.u + 1) }) := by
    rw [QuickJS_DupValueRT, JS_DupValueRT_of_ref rt h hh]
  have hdc : QuickJS_DupValue ⟨rt⟩ h =
      ⟨{ rt with ref_count := Function.update rt.ref_count h.u (rt.ref_count h.u + 1) }⟩ := by
    rw [QuickJS_DupValue, JS_DupValue, JS_DupValueRT_of_ref rt h hh]
  have hf : ∀ (r : JSRuntime) (p : Nat), (QuickJS_FreeValueRT r h).ref_count p =
      Function.update r.ref_count h.u (r.ref_count h.u - 1) p := by
    intro r p
    rw [QuickJS_FreeValueRT, JS_FreeValueRT_ref_count r h hh]
  have hfc : ∀ (c : JSContext) (p : Nat), (QuickJS_FreeValue c h).rt.ref_count p =
      Function.update c.rt.ref_count h.u (c.rt.ref_count h.u - 1) p := by
    intro c p
    rw [QuickJS_FreeValue, JS_FreeValue]
    exact JS_FreeValueRT_ref_count c.rt h hh p
  refine ⟨?_, ?_, ?_, ?_, ?_, ?_, ?_, ?_, ?_⟩
  · rw [hd]
  · rw [hd]; simp
  · rw [hdc]; simp
  · rw [hd, hf]; simp
  · rw [hdc, hfc]; simp
  · intro hn
    rw [hd, QuickJS_FreeValueRT, JS_FreeValueRT_of_pos _ h hh (by simp; linarith)]
    cases rt
    simp
  · rw [hd, hf, hf]; simp
  · rw [hfc, hfc, hdc]; simp
  · intro p hp
    rw [hd, hf, Function.update_noteq hp, hf, Function.update_noteq hp]
    exact Function.update_noteq hp _ _

theorem dup_release_round_trip_witness :
    JS_VALUE_HAS_REF_COUNT demoObject = true ∧
    (QuickJS_FreeValueRT (QuickJS_DupValueRT demoRuntime demoObject).2
      (QuickJS_DupValueRT demoRuntime demoObject).1).ref_count demoObject.u =
      demoRuntime.ref_count demoObject.u :=
  ⟨by decide, (dup_release_round_trip demoRuntime demoObject (by decide)).2.2.2.1⟩

/-- C7: classification of constructor outputs: for every 32-bit integer `x` the handle
`QuickJS_NewInt32 x` is a number, for every double `d` (given by its bits) the handle
`QuickJS_NewFloat64 d` is a number, and the output of every scalar constructor
(`QuickJS_NewInt32`, `QuickJS_NewInt64`, `QuickJS_NewFloat64`, `QuickJS_NewBool` and the
singletons null, undefined, true, false, exception, uninitialized) is neither a string, nor
a symbol, nor an object. -/
theorem scalar_constructors_classified (ctx : JSContext) (double_of_int64 : Int → Nat)
    (x y b : Int) (d : Nat) :
    QuickJS_IsNumber (QuickJS_NewInt32 ctx x) = true ∧
    QuickJS_IsNumber (QuickJS_NewFloat64 ctx d) = true ∧
    (∀ v ∈ [QuickJS_NewInt32 ctx x, QuickJS_NewInt64 double_of_int64 ctx y,
        QuickJS_NewFloat64 ctx d, QuickJS_NewBool ctx b, QuickJS_NULL, QuickJS_UNDEFINED,
        QuickJS_TRUE, QuickJS_FALSE, QuickJS_EXCEPTION, QuickJS_UNINITIALIZED],
      QuickJS_IsString v = false ∧ QuickJS_IsSymbol v = false ∧ QuickJS_IsObject v = false) := by
  have hcls : ∀ v : JSValue, 0 ≤ v.tag →
      QuickJS_IsString v = false ∧ QuickJS_IsSymbol v = false ∧ QuickJS_IsObject v = false := by
    intro v hv
    rw [QuickJS_IsString, QuickJS_IsSymbol, QuickJS_IsObject, JS_IsString, JS_IsSymbol,
      JS_IsObject, JS_TAG_STRING, JS_TAG_SYMBOL, JS_TAG_OBJECT]
    refine ⟨?_, ?_, ?_⟩ <;> exact decide_eq_false (by intro h; rw [h] at hv; exact absurd hv (by decide))
  have h32 : ∀ z : Int, (QuickJS_NewInt32 ctx z).tag = 0 := fun _ => rfl
  have h64f : (QuickJS_NewFloat64 ctx d).tag = 7 := rfl
  have h64 : 0 ≤ (QuickJS_NewInt64 double_of_int64 ctx y).tag := by
    rw [QuickJS_NewInt64, JS_NewInt64]
    split
    · exact le_of_eq (h32 y).symm
    · exact (by decide : (0 : Int) ≤ 7)
  refine ⟨?_, ?_, ?_⟩
  · rw [QuickJS_IsNumber, JS_IsNumber, h32 x]
    decide
  · rw [QuickJS_IsNumber, JS_IsNumber, h64f]
    decide
  · intro v hv
    simp only [List.mem_cons, List.mem_singleton, List.not_mem_nil, or_false] at hv
    rcases hv with rfl | rfl | rfl | rfl | rfl | rfl | rfl | rfl | rfl | rfl
    · exact hcls _ (le_of_eq (h32 x).symm)
    · exact hcls _ h64
    · exact hcls _ (by rw [h64f]; decide)
    · exact hcls _ (by rw [QuickJS_NewBool, JS_NewBool, JS_MKVAL_tag]; decide)
    · exact hcls _ (by rw [QuickJS_NULL, JS_MKVAL_tag]; decide)
    · exact hcls _ (by rw [QuickJS_UNDEFINED, JS_MKVAL_tag]; decide)
    · exact hcls _ (by rw [QuickJS_TRUE, JS_MKVAL_tag]; decide)
    · exact hcls _ (by rw [QuickJS_FALSE, JS_MKVAL_tag]; decide)
    · exact hcls _ (by rw [QuickJS_EXCEPTION, JS_MKVAL_tag]; decide)
    · exact hcls _ (by rw [QuickJS_UNINITIALIZED, JS_MKVAL_tag]; decide)

/-- C8: `QuickJS_VALUE_IS_NAN` is true exactly for a float64-tagged handle whose 64-bit
payload is the canonical not-a-number pattern `0x7ff8000000000000`: it is false for every
other float64 payload, the two infinities included, and for every handle that is not
float64-tagged. -/
theorem value_is_nan_iff (v : JSValue) (ctx : JSContext) (d : Nat) (x : Int) :
    (QuickJS_VALUE_IS_NAN v = true ↔
      (v.tag = JS_TAG_FLOAT64 ∧ v.u = 0x7ff8000000000000)) ∧
    (QuickJS_VALUE_IS_NAN (QuickJS_NewFloat64 ctx d) = true ↔ d = 0x7ff8000000000000) ∧
    QuickJS_VALUE_IS_NAN (QuickJS_NewFloat64 ctx FLOAT64_POS_INFINITY) = false ∧
    QuickJS_VALUE_IS_NAN (QuickJS_NewFloat64 ctx FLOAT64_NEG_INFINITY) = false ∧
    QuickJS_VALUE_IS_NAN (QuickJS_NewFloat64 ctx JS_FLOAT64_NAN) = true ∧
    QuickJS_VALUE_IS_NAN (QuickJS_NewInt32 ctx x) = false ∧
    (v.tag ≠ JS_TAG_FLOAT64 → QuickJS_VALUE_IS_NAN v = false) := by
  have hiff : ∀ w : JSValue, QuickJS_VALUE_IS_NAN w = true ↔
      (w.tag = JS_TAG_FLOAT64 ∧ w.u = 0x7ff8000000000000) := by
    intro w
    rw [QuickJS_VALUE_IS_NAN, JS_VALUE_IS_NAN, JS_FLOAT64_NAN, Bool.and_eq_true,
      decide_eq_true_iff, decide_eq_true_iff]
  have hf : ∀ e : Nat, QuickJS_VALUE_IS_NAN (QuickJS_NewFloat64 ctx e) = true ↔
      e = 0x7ff8000000000000 := by
    intro e
    rw [hiff]
    exact ⟨fun h => h.2, fun h => ⟨rfl, h⟩⟩
  have hfalse : ∀ w : JSValue, ¬ (w.tag = JS_TAG_FLOAT64 ∧ w.u = 0x7ff8000000000000) →
      QuickJS_VALUE_IS_NAN w = false := by
    intro w hw
    cases hc : QuickJS_VALUE_IS_NAN w
    · rfl
    · exact absurd ((hiff w).1 hc) hw
  refine ⟨hiff v, hf d, ?_, ?_, ?_, ?_, ?_⟩
  · exact hfalse _ (fun h =>
      absurd (show FLOAT64_POS_INFINITY = 0x7ff8000000000000 from h.2) (by decide))
  · exact hfalse _ (fun h =>
      absurd (show FLOAT64_NEG_INFINITY = 0x7ff8000000000000 from h.2) (by decide))
  · exact (hf _).2 rfl
  · exact hfalse _ (fun h => absurd (show JS_TAG_INT = JS_TAG_FLOAT64 from h.1) (by decide))
  · intro hv
    exact hfalse _ (fun h => hv h.1)

theorem value_is_nan_iff_witness :
    (QuickJS_NULL).tag ≠ JS_TAG_FLOAT64 ∧ QuickJS_VALUE_IS_NAN QuickJS_NULL = false :=
  ⟨by decide, (value_is_nan_iff QuickJS_NULL ⟨demoRuntime⟩ 0 0).2.2.2.2.2.2 (by decide)⟩

end QuickjsHelper
